import Mathlib

/-!
Verification of the order-intake Cloud Function
(`main.py` and `utils/order_utils.py`): a shallow embedding of the payload
validator and the HTTP request handler, with theorems checking the
specification claims against the embedded code.
-/

/-- Python exceptions that the embedded module can raise. The handler in
`main.py` catches only `ValueError` around validation; every other kind
propagates out of it. -/
inductive PyErr where
  | valueError (msg : String)
  | typeError (msg : String)
  | keyError (key : String)
deriving DecidableEq

/-- Exact value of a Python float, as the rational `num / den`. Every IEEE
double denotes an exact rational, and the embedded code performs no float
arithmetic on the live paths (only `isinstance` tests and sign comparisons),
so this representation is faithful for every payload the claims use. All
values constructed here have `den > 0`. -/
structure PyFloat where
  num : Int
  den : Nat
deriving DecidableEq

/-- A JSON value as produced by Flask `request.get_json`: Python `str`,
`int`, `float`, `bool`, `None`, `list`, and insertion-ordered `dict`.
Booleans are kept distinct from ints because Python `bool` is its own type
(although a subclass of `int`, which the `isinstance` embeddings below
reflect). -/
inductive JValue where
  | jnull
  | jbool (b : Bool)
  | jint (n : Int)
  | jfloat (x : PyFloat)
  | jstr (s : String)
  | jarr (xs : List JValue)
  | jobj (fields : List (String × JValue))

/-- First value bound to `key` in a Python dict literal, if any. -/
def jobjFind (fields : List (String × JValue)) (key : String) : Option JValue :=
  match fields with
  | [] => none
  | (k, v) :: rest => if k = key then some v else jobjFind rest key

/-- Whether a dict has the given key (Python `key in d` on a dict). -/
def jobjHasKey (fields : List (String × JValue)) (key : String) : Bool :=
  fields.any (fun kv => kv.1 == key)

/-- Python membership test `key in v` for a string `key`: key lookup on a
dict, element equality on a list (a number never equals a string), substring
on a string (the keys tested by the module are all non-empty literals), and
`TypeError` on non-iterables. -/
def pyContains (v : JValue) (key : String) : Except PyErr Bool :=
  match v with
  | .jobj fields => .ok (jobjHasKey fields key)
  | .jarr xs => .ok (xs.any (fun e => match e with | .jstr s => s == key | _ => false))
  | .jstr s => .ok (decide ((s.splitOn key).length > 1))
  | .jnull => .error (.typeError "argument of type \x27NoneType\x27 is not iterable")
  | .jbool _ => .error (.typeError "argument of type \x27bool\x27 is not iterable")
  | .jint _ => .error (.typeError "argument of type \x27int\x27 is not iterable")
  | .jfloat _ => .error (.typeError "argument of type \x27float\x27 is not iterable")

/-- Python subscription `v[key]` with a string key: dict lookup (raising
`KeyError` when absent), `TypeError` on anything else. -/
def pyGetItem (v : JValue) (key : String) : Except PyErr JValue :=
  match v with
  | .jobj fields =>
    match jobjFind fields key with
    | some x => .ok x
    | none => .error (.keyError key)
  | .jarr _ => .error (.typeError "list indices must be integers or slices, not str")
  | .jstr _ => .error (.typeError "string indices must be integers")
  | _ => .error (.typeError "object is not subscriptable")

/-- Python `isinstance(v, int)`. Python `bool` is a subclass of `int`, so
booleans pass this test. -/
def pyIsInt : JValue → Bool
  | .jint _ => true
  | .jbool _ => true
  | _ => false

/-- Python `isinstance(v, (int, float))`. Booleans pass because `bool`
subclasses `int`. -/
def pyIsNumber : JValue → Bool
  | .jint _ => true
  | .jfloat _ => true
  | .jbool _ => true
  | _ => false

/-- Python `isinstance(v, str)`. -/
def pyIsStr : JValue → Bool
  | .jstr _ => true
  | _ => false

/-- Python `isinstance(v, list)`. -/
def pyIsList : JValue → Bool
  | .jarr _ => true
  | _ => false

/-- Python `isinstance(v, dict)`. -/
def pyIsDict : JValue → Bool
  | .jobj _ => true
  | _ => false

/-- Python `v <= 0` on a numeric value (`True` counts as 1, `False` as 0;
a float is `num / den` with `den > 0`, so its sign is the sign of `num`).
The source only evaluates this after an `isinstance` numeric check on the
same value (short-circuit `or`), so the non-numeric branch is unreachable. -/
def numLeZero : JValue → Bool
  | .jint n => decide (n ≤ 0)
  | .jbool b => b == false
  | .jfloat x => decide (x.num ≤ 0)
  | _ => true

/-- Python truthiness of a decoded JSON value (`if not data:`). -/
def pyTruthy : JValue → Bool
  | .jnull => false
  | .jbool b => b
  | .jint n => !(n == 0)
  | .jfloat x => !(x.num == 0)
  | .jstr s => !(s == "")
  | .jarr xs => !xs.isEmpty
  | .jobj fields => !fields.isEmpty

/-- Python `repr` of a list of strings, as interpolated by
`f"Missing fields : \x7bmissing\x7d"`. -/
def pyStrListRepr (xs : List String) : String :=
  "[" ++ String.intercalate ", " (xs.map (fun s => "\x27" ++ s ++ "\x27")) ++ "]"

/-- The required top-level fields of `validate_payload`, in declared order. -/
def requiredFields : List String :=
  ["order_id", "customer_id", "items", "order_date", "shipping_address",
   "payment_method", "total_amount"]

/-- The list comprehension `[f for f in required if f not in data]`:
membership tests run left to right and any `TypeError` from `in` aborts. -/
def collectMissing (data : JValue) : List String → Except PyErr (List String)
  | [] => .ok []
  | f :: rest => do
    let b ← pyContains data f
    let tail ← collectMissing data rest
    Except.ok (if b then tail else f :: tail)

/-- The per-item required keys, in the order the source tuple lists them. -/
def itemKeys : List String := ["sku", "name", "qty", "unit_price"]

/-- The inner loop `for key in ("sku", "name", "qty", "unit_price")` of item
`i`: raise on the first key not contained in the item. -/
def checkItemKeys (it : JValue) (i : Nat) : List String → Except PyErr Unit
  | [] => .ok ()
  | key :: rest => do
    let b ← pyContains it key
    if !b then
      Except.error (.valueError ("Items[" ++ toString i ++ "] missing \x27" ++ key ++ "\x27"))
    else checkItemKeys it i rest

/-- Body of the item loop for item `it` at index `i`: key presence, then the
qty check `not isinstance(it["qty"], int) or it["qty"] <= 0`, then the
unit_price check (each `or` short-circuits, so `numLeZero` is only consulted
on values that passed the `isinstance` test). -/
def checkItem (it : JValue) (i : Nat) : Except PyErr Unit := do
  checkItemKeys it i itemKeys
  let q ← pyGetItem it "qty"
  if !pyIsInt q || numLeZero q then
    Except.error (.valueError ("Item[" ++ toString i ++ "].qty must be a positives integer"))
  else do
    let p ← pyGetItem it "unit_price"
    if !pyIsNumber p || numLeZero p then
      Except.error (.valueError ("Item[" ++ toString i ++ "].unit_price must be non-negative number"))
    else Except.ok ()

/-- The loop `for i, it in enumerate(items)`, starting at index `i`. -/
def checkItems : List JValue → Nat → Except PyErr Unit
  | [], _ => .ok ()
  | it :: rest, i => do
    checkItem it i
    checkItems rest (i + 1)

/-- The shipping-address fields, in the order the source tuple lists them. -/
def addrFields : List String := ["line1", "city", "state", "postal_code", "country"]

/-- The loop over shipping-address fields: raise on the first absent one. -/
def checkAddrFields (addr : JValue) : List String → Except PyErr Unit
  | [] => .ok ()
  | f :: rest => do
    let b ← pyContains addr f
    if !b then
      Except.error (.valueError ("`Shipping_address` missing \x27" ++ f ++ "\x27"))
    else checkAddrFields addr rest

/-- A value that can arise while evaluating
`sum(it["qty"]*["unit_price"] for it in items)`: the integer accumulator
(starting at 0) or a list of strings (each term `it["qty"]*["unit_price"]`
is the list literal `["unit_price"]` repeated `qty` times). -/
inductive SumVal where
  | int (n : Int)
  | strs (xs : List String)

/-- Python `n * xs` for an int `n` and a list `xs`: `n` concatenated copies,
empty when `n <= 0`. -/
def listRepeat (n : Int) (xs : List String) : List String :=
  (List.replicate n.toNat xs).flatten

/-- The message of the `TypeError` raised by `0 + ["unit_price", ...]` when
`sum` folds the first term of the generator into its integer start value. -/
def sumTypeErrorMsg : String :=
  "unsupported operand type(s) for +: \x27int\x27 and \x27list\x27"

/-- One term of the generator: `it["qty"] * ["unit_price"]`. The subscript
can raise; multiplying the list literal requires an int (or bool, worth 1 or
0) on the left, anything else is a `TypeError`. -/
def itemTerm (it : JValue) : Except PyErr SumVal := do
  let q ← pyGetItem it "qty"
  match q with
  | .jint n => .ok (.strs (listRepeat n ["unit_price"]))
  | .jbool b => .ok (.strs (listRepeat (if b then 1 else 0) ["unit_price"]))
  | _ => .error (.typeError "can\x27t multiply sequence by non-int")

/-- Python `+` between the values `sum` can hold: int plus int adds, list
plus list concatenates, and mixing the two raises `TypeError` — in
particular the very first fold step `0 + ["unit_price", ...]`. -/
def pySumAdd (acc t : SumVal) : Except PyErr SumVal :=
  match acc, t with
  | .int a, .int b => .ok (.int (a + b))
  | .strs a, .strs b => .ok (.strs (a ++ b))
  | .int _, .strs _ => .error (.typeError sumTypeErrorMsg)
  | .strs _, .int _ => .error (.typeError "can only concatenate list to list")

/-- `sum(it["qty"]*["unit_price"] for it in items)` with accumulator `acc`
(the builtin starts from the int 0). -/
def computeSum (acc : SumVal) : List JValue → Except PyErr SumVal
  | [] => .ok acc
  | it :: rest => do
    let t ← itemTerm it
    let acc2 ← pySumAdd acc t
    computeSum acc2 rest

/-- Round half to even of `num / den` at 2 decimal places, returned scaled
by 100 (exact integer arithmetic; `den > 0` for every constructed float). -/
def roundHalfEven2 (num : Int) (den : Nat) : Int :=
  let d : Int := den
  let s := num * 100
  let q := s.ediv d
  let r := s.emod d
  if 2 * r < d then q
  else if 2 * r > d then q + 1
  else if q.emod 2 = 0 then q else q + 1

/-- `round(total_amount, 2)` scaled by 100, for a value that passed the
numeric `isinstance` check (int, bool, or float). -/
def scaled2 : JValue → Int
  | .jint m => m * 100
  | .jbool b => if b then 100 else 0
  | .jfloat x => roundHalfEven2 x.num x.den
  | _ => 0

/-- Fixed two-decimal rendering (`"%.2f"`) of a value given scaled by 100. -/
def fmtFixed2 (s : Int) : String :=
  let sign := if s < 0 then "-" else ""
  let a := s.natAbs
  let cents := a % 100
  let centsStr := if cents < 10 then "0" ++ toString cents else toString cents
  sign ++ toString (a / 100) ++ "." ++ centsStr

/-- The `" .2f"` format (space flag) used for the received total: non-negative
values get a leading space. -/
def fmtSpaceFixed2 (s : Int) : String :=
  if 0 ≤ s then " " ++ fmtFixed2 s else fmtFixed2 s

/-- The mismatch message
`f"total_amount mismatch : expected \x7bcomputed:.2f\x7d, got \x7btotal_amount: .2f\x7d"`
for an integer computed sum. -/
def mismatchMsg (computed : Int) (total : JValue) : String :=
  "total_amount mismatch : expected " ++ fmtFixed2 (computed * 100) ++
    ", got" ++ fmtSpaceFixed2 (scaled2 total)

/-- `round(computed, 2) != round(total_amount, 2)` for an integer computed
sum (rounding an int at 2 places returns it unchanged). -/
def roundedMismatch (computed : Int) (total : JValue) : Bool :=
  !(computed * 100 == scaled2 total)

/-- `utils/order_utils.validate_payload`, translated statement by statement.
The result is `.ok true` for the final `return True`, `.error (.valueError m)`
for each `raise ValueError`, and `.error (.typeError m)` where the Python
runtime itself raises — notably inside
`computed = sum(it["qty"]*["unit_price"] for it in items)`, whose terms are
lists (the literal `["unit_price"]` repeated), so the fold from the int 0
raises `TypeError` whenever `items` is non-empty. -/
def validate_payload_result (data : JValue) : Except PyErr Bool := do
  let missing ← collectMissing data requiredFields
  if !missing.isEmpty then
    Except.error (.valueError ("Missing fields : " ++ pyStrListRepr missing))
  else do
  let items ← pyGetItem data "items"
  match items with
  | .jarr xs =>
    if xs.length = 0 then
      Except.error (.valueError "`items` must be a non-empty list")
    else do
      checkItems xs 0
      let addr ← pyGetItem data "shipping_address"
      if !pyIsDict addr then
        Except.error (.valueError "`Shipping_address` must be an object")
      else do
        checkAddrFields addr addrFields
        let pm ← pyGetItem data "payment_method"
        if !pyIsStr pm then
          Except.error (.valueError "`payment_method` must be a string")
        else do
          let total ← pyGetItem data "total_amount"
          if !pyIsNumber total then
            Except.error (.valueError "`total_amount` must be a number")
          else do
            let computed ← computeSum (.int 0) xs
            match computed with
            | .int n =>
              if roundedMismatch n total then
                Except.error (.valueError (mismatchMsg n total))
              else do
                let _ ← pyGetItem data "order_id"
                Except.ok true
            | .strs _ =>
              Except.error (.typeError "type list does not define __round__ method")
  | _ => Except.error (.valueError "`items` must be a non-empty list")

/-- `validate_payload` as a procedure acting on the payload object: it pairs
the raised-or-returned outcome with the payload as left after the call. The
source contains no assignment into `data` or anything reachable from it
(every statement only reads), so the post-call payload is the argument
itself. -/
def validate_payload (data : JValue) : Except PyErr Bool × JValue :=
  (validate_payload_result data, data)

/-- `utils/order_utils.simulate_db_save`: logs `data["order_id"]` (the
subscript can raise) and returns `True`. -/
def simulate_db_save (data : JValue) : Except PyErr Bool := do
  let _ ← pyGetItem data "order_id"
  Except.ok true

/-- The HTTP response the handler builds: status code plus the JSON object
handed to `jsonify`, with fields in source order. -/
structure HttpResponse where
  status : Nat
  body : List (String × JValue)

/-- `main.order_event` with the validator collaborator passed explicitly
(`main.py` imports it from `utils.order_utils`); theorems quantify over it
to state that some paths never consult the validator. `body` is the result
of `request.get_json(silent=True)`: `none` when the body is missing or not
parseable as JSON. A validator error that is not a `ValueError` escapes the
handler (the source catches `except ValueError` only), as does any error
while building the success response. -/
def order_event_with (validator : JValue → Except PyErr Bool)
    (method : String) (body : Option JValue) : Except PyErr HttpResponse :=
  if method ≠ "POST" then .ok ⟨405, [("error", .jstr "Use POST")]⟩
  else
    match body with
    | none => .ok ⟨400, [("error", .jstr "Invalid JSON")]⟩
    | some data =>
      if !pyTruthy data then .ok ⟨400, [("error", .jstr "Invalid JSON")]⟩
      else
        match validator data with
        | .error (.valueError m) => .ok ⟨400, [("error", .jstr m)]⟩
        | .error e => .error e
        | .ok _ =>
          match simulate_db_save data with
          | .error _ => .ok ⟨500, [("error", .jstr "Internal error")]⟩
          | .ok saved =>
            if !saved then .ok ⟨500, [("error", .jstr "Internal error")]⟩
            else do
              let oid ← pyGetItem data "order_id"
              let items ← pyGetItem data "items"
              let cnt ←
                match items with
                | .jarr xs => Except.ok (xs.length : Int)
                | .jobj fs => Except.ok (fs.length : Int)
                | .jstr s => Except.ok (s.length : Int)
                | _ => Except.error (.typeError "object has no len()")
              let total ← pyGetItem data "total_amount"
              let pm ← pyGetItem data "payment_method"
              let addr ← pyGetItem data "shipping_address"
              Except.ok ⟨200,
                [("status", .jstr "processed"),
                 ("order_id", oid),
                 ("items_count", .jint cnt),
                 ("total_amount", total),
                 ("payment_method", pm),
                 ("shipping_address", addr),
                 ("message", .jstr "Order received and stored.")]⟩

/-- `main.order_event` with the validator the source imports. -/
def order_event (method : String) (body : Option JValue) : Except PyErr HttpResponse :=
  order_event_with (fun d => (validate_payload d).1) method body

/-- Builds an order payload object with the seven required keys in the
order the concrete spec scenarios use. -/
def mkPayload (o c : JValue) (items : List JValue) (od a pm t : JValue) : JValue :=
  .jobj [("order_id", o), ("customer_id", c), ("items", .jarr items),
         ("order_date", od), ("shipping_address", a),
         ("payment_method", pm), ("total_amount", t)]

/-- The shipping address of the concrete spec scenarios. -/
def scenarioAddr : JValue :=
  .jobj [("line1", .jstr "1 Rd"), ("city", .jstr "X"), ("state", .jstr "Y"),
         ("postal_code", .jstr "0"), ("country", .jstr "Z")]

/-- The single line item of spec scenario 1: qty 2 at unit price 1.50. -/
def scenario1Item : JValue :=
  .jobj [("sku", .jstr "A"), ("name", .jstr "Apple"),
         ("qty", .jint 2), ("unit_price", .jfloat ⟨3, 2⟩)]

/-- Spec scenario 1: the fully valid order with total 3.00. -/
def scenario1 : JValue :=
  mkPayload (.jstr "O1") (.jstr "C1") [scenario1Item] (.jstr "2024-01-01")
    scenarioAddr (.jstr "card") (.jfloat ⟨3, 1⟩)

/-- Spec scenario 2: same order but declared total 5.00. -/
def scenario2 : JValue :=
  mkPayload (.jstr "O1") (.jstr "C1") [scenario1Item] (.jstr "2024-01-01")
    scenarioAddr (.jstr "card") (.jfloat ⟨5, 1⟩)

/-- A well-formed order whose numeric values are all Python ints: one item,
qty 1 at unit price 2, declared total 2 (arithmetically consistent). -/
def allIntItem : JValue :=
  .jobj [("sku", .jstr "B"), ("name", .jstr "Bread"),
         ("qty", .jint 1), ("unit_price", .jint 2)]

/-- Payload built from `allIntItem`, with every top-level field present. -/
def allIntPayload : JValue :=
  mkPayload (.jstr "O2") (.jstr "C2") [allIntItem] (.jstr "2024-01-02")
    scenarioAddr (.jstr "card") (.jint 2)

/-- A line item whose qty and unit_price are both the Python boolean True. -/
def boolItem : JValue :=
  .jobj [("sku", .jstr "C"), ("name", .jstr "Cheese"),
         ("qty", .jbool true), ("unit_price", .jbool true)]

/-- Payload with boolean qty, boolean unit_price, and boolean total_amount. -/
def allBoolPayload : JValue :=
  mkPayload (.jstr "O3") (.jstr "C3") [boolItem] (.jstr "2024-01-03")
    scenarioAddr (.jstr "card") (.jbool true)

theorem okBind (a : α) (f : α → Except PyErr β) :
    (Except.ok a >>= f) = f a := rfl

theorem errorBind (e : PyErr) (f : α → Except PyErr β) :
    ((Except.error e : Except PyErr α) >>= f) = .error e := rfl

/-- On a dict, the missing-fields comprehension is the plain filter of the
field list by absence of the key. -/
theorem collectMissing_jobj (fs : List (String × JValue)) (l : List String) :
    collectMissing (.jobj fs) l = .ok (l.filter (fun f => !jobjHasKey fs f)) := by
  induction l with
  | nil => rfl
  | cons f rest ih =>
    simp only [collectMissing, pyContains, okBind, ih, List.filter]
    cases h : jobjHasKey fs f <;> simp [h]

/-- A successful subscript implies the subscripted value is a non-empty dict,
hence truthy. -/
theorem pyGetItem_ok_truthy (v : JValue) (k : String) (x : JValue)
    (h : pyGetItem v k = .ok x) : pyTruthy v = true := by
  cases v <;> simp [pyGetItem] at h
  next fields =>
    cases fields with
    | nil => simp [jobjFind] at h
    | cons a rest => rfl

/-- C1: for every payload that passes validation, POSTing it with the
succeeding persistence stub yields 200 echoing the fields, with items_count
equal to the item count — refuted by the code: validation raises `TypeError`
at the arithmetic cross-check for every payload that gets there, so the
concrete valid order of scenario 1 (qty 2 at 1.50, total 3.00) makes the
handler propagate a `TypeError` instead of returning 200. -/
theorem order_event_scenario1_typeError :
    order_event "POST" (some scenario1) = .error (.typeError sumTypeErrorMsg) := rfl

/-- C2: the scenario-2 payload (computed 3.00, declared 5.00) should produce
the 400 total_amount-mismatch response — refuted by the code: the computed
sum `sum(it["qty"]*["unit_price"] for it in items)` raises `TypeError`
before the mismatch comparison is ever reached, so the handler propagates a
`TypeError` instead of returning the 400 mismatch body. -/
theorem order_event_scenario2_typeError :
    order_event "POST" (some scenario2) = .error (.typeError sumTypeErrorMsg) := rfl

/-- C3: every error raised during validation of an object body should be
caught by the handler and converted to a 400 — refuted by the code: the
handler catches `ValueError` only, and the validator raises `TypeError` at
the arithmetic step for this well-formed all-int payload, which therefore
escapes `order_event` uncaught. -/
theorem order_event_validation_typeError_escapes :
    order_event "POST" (some allIntPayload) = .error (.typeError sumTypeErrorMsg) := rfl

/-- C4 counterexample: the claim says booleans are rejected wherever a
number is expected, but `isinstance` treats `bool` as `int`: an item with
qty `True` and unit_price `True` passes the per-item numeric checks
outright, and a payload with total_amount `True` is not rejected by the
total_amount type check (validation fails later, at the arithmetic step,
with the `TypeError` every payload reaching it hits). -/
theorem boolean_numbers_not_rejected :
    checkItem boolItem 0 = .ok () ∧
    validate_payload_result allBoolPayload ≠
      .error (.valueError "`total_amount` must be a number") ∧
    validate_payload_result allBoolPayload = .error (.typeError sumTypeErrorMsg) := by
  refine ⟨rfl, ?_, rfl⟩
  intro h
  rw [show validate_payload_result allBoolPayload =
        .error (.typeError sumTypeErrorMsg) from rfl] at h
  simp at h

/-- C4 amended: booleans are accepted where a number is expected — the
`isinstance`-based checks treat `bool` as `int`, so boolean qty, unit_price
and total_amount all pass the numeric checks; validation of such a payload
still fails, but with the arithmetic-step `TypeError` that every payload
reaching that point hits, not with a boolean-rejection error. -/
theorem booleans_accepted_by_numeric_checks :
    (∀ b, pyIsInt (.jbool b) = true) ∧
    (∀ b, pyIsNumber (.jbool b) = true) ∧
    checkItem boolItem 0 = .ok () ∧
    validate_payload_result allBoolPayload = .error (.typeError sumTypeErrorMsg) :=
  ⟨fun _ => rfl, fun _ => rfl, rfl, rfl⟩

/-- C7: a request whose method is not POST gets 405 `Use POST` without the
validator being consulted (the response is the same for every validator),
and a POST whose body is missing or unparseable (`get_json` returns None)
gets 400 `Invalid JSON`. -/
theorem method_gate_and_invalid_json (validator : JValue → Except PyErr Bool)
    (method : String) (body : Option JValue) (h : method ≠ "POST") :
    order_event_with validator method body = .ok ⟨405, [("error", .jstr "Use POST")]⟩ ∧
    order_event_with validator "POST" none = .ok ⟨400, [("error", .jstr "Invalid JSON")]⟩ := by
  constructor
  · unfold order_event_with
    rw [if_pos h]
  · rfl

theorem method_gate_and_invalid_json_witness :
    order_event_with (fun d => (validate_payload d).1) "GET" none =
      .ok ⟨405, [("error", .jstr "Use POST")]⟩ ∧
    order_event_with (fun d => (validate_payload d).1) "POST" none =
      .ok ⟨400, [("error", .jstr "Invalid JSON")]⟩ :=
  method_gate_and_invalid_json (fun d => (validate_payload d).1) "GET" none (by decide)

/-- C8: the validator leaves the payload exactly as given (the source never
assigns into it), and a second call on the payload left by the first call
produces the same outcome. -/
theorem validator_idempotent_no_mutation (d : JValue) :
    (validate_payload d).2 = d ∧
    (validate_payload ((validate_payload d).2)).1 = (validate_payload d).1 :=
  ⟨rfl, rfl⟩

/-- C10: a POST whose body parses to a falsy JSON value — the empty object
included — is answered 400 `Invalid JSON` by the `if not data:` guard, for
every validator (so the validator, and its all-fields-missing error, is
never consulted). -/
theorem falsy_body_rejected_as_invalid_json (validator : JValue → Except PyErr Bool)
    (v : JValue) (h : pyTruthy v = false) :
    order_event_with validator "POST" (some v) =
      .ok ⟨400, [("error", .jstr "Invalid JSON")]⟩ := by
  unfold order_event_with
  simp [h]

theorem falsy_body_rejected_as_invalid_json_witness :
    order_event_with (fun d => (validate_payload d).1) "POST" (some (.jobj [])) =
      .ok ⟨400, [("error", .jstr "Invalid JSON")]⟩ :=
  falsy_body_rejected_as_invalid_json (fun d => (validate_payload d).1) (.jobj []) rfl

/-- C5: a payload missing required top-level fields fails immediately — the
conclusion holds whatever the other field values contain, so no later check
runs first — with a single error listing every missing field name, filtered
out of the required list in its declared order. -/
theorem missing_fields_all_reported (fs : List (String × JValue))
    (h : requiredFields.filter (fun f => !jobjHasKey fs f) ≠ []) :
    (validate_payload (.jobj fs)).1 =
      .error (.valueError ("Missing fields : " ++
        pyStrListRepr (requiredFields.filter (fun f => !jobjHasKey fs f)))) := by
  show validate_payload_result (.jobj fs) = _
  unfold validate_payload_result
  rw [collectMissing_jobj]
  cases hm : requiredFields.filter (fun f => !jobjHasKey fs f) with
  | nil => exact absurd hm h
  | cons a as => simp [okBind]

theorem missing_fields_all_reported_witness :
    (validate_payload (.jobj [("order_id", .jstr "O1")])).1 =
      .error (.valueError ("Missing fields : " ++
        pyStrListRepr (requiredFields.filter
          (fun f => !jobjHasKey [("order_id", .jstr "O1")] f)))) :=
  missing_fields_all_reported [("order_id", .jstr "O1")] (by decide)

/-- Items that each pass their check are walked over by the loop, which then
continues at the index past them. -/
theorem checkItems_append_of_valid (pre : List JValue) (k : Nat) (l : List JValue)
    (h : ∀ j (hj : j < pre.length), checkItem (pre.get ⟨j, hj⟩) (k + j) = .ok ()) :
    checkItems (pre ++ l) k = checkItems l (k + pre.length) := by
  induction pre generalizing k with
  | nil => simp [checkItems]
  | cons it rest ih =>
    have h0 : checkItem it k = .ok () := by
      have := h 0 (by simp)
      simpa using this
    have hrest : ∀ j (hj : j < rest.length),
        checkItem (rest.get ⟨j, hj⟩) ((k + 1) + j) = .ok () := by
      intro j hj
      have hj' : j + 1 < (it :: rest).length := by simpa using Nat.succ_lt_succ hj
      have hh := h (j + 1) hj'
      have e : k + (j + 1) = (k + 1) + j := by omega
      rw [e] at hh
      exact hh
    simp only [List.cons_append, checkItems, h0, okBind, List.append_eq]
    rw [ih (k + 1) hrest]
    congr 1
    simp only [List.length_cons]
    omega

/-- On a payload built with all seven keys, a failing item loop is the
validation outcome: the missing-fields and items-shape stages pass and the
loop error is what the function raises. -/
theorem validate_mkPayload_loop_error (o c od a pm t : JValue)
    (items : List JValue) (e : PyErr)
    (hne : items ≠ []) (hloop : checkItems items 0 = .error e) :
    validate_payload_result (mkPayload o c items od a pm t) = .error e := by
  have h1 : collectMissing (mkPayload o c items od a pm t) requiredFields = .ok [] := rfl
  have h2 : pyGetItem (mkPayload o c items od a pm t) "items" = .ok (.jarr items) := rfl
  simp [validate_payload_result, h1, h2, hloop, hne, okBind, errorBind]

/-- C6: in a payload whose items before index `i` all pass their checks and
whose item `i` has the four keys but a qty that is not an int or is not
strictly positive, validation fails with the error citing index `i` — the
items are walked in sequence order, keys are checked before qty, and the
qty error preempts any unit_price problem of the same item. -/
theorem qty_error_cites_item_index
    (o c od a pm t q : JValue) (pre : List JValue) (it : JValue) (rest : List JValue)
    (hpre : ∀ j (hj : j < pre.length), checkItem (pre.get ⟨j, hj⟩) j = .ok ())
    (hkeys : checkItemKeys it pre.length itemKeys = .ok ())
    (hq : pyGetItem it "qty" = .ok q)
    (hbad : pyIsInt q = false ∨ numLeZero q = true) :
    (validate_payload (mkPayload o c (pre ++ it :: rest) od a pm t)).1 =
      .error (.valueError ("Item[" ++ toString pre.length ++
        "].qty must be a positives integer")) := by
  have hpre' : ∀ j (hj : j < pre.length), checkItem (pre.get ⟨j, hj⟩) (0 + j) = .ok () := by
    intro j hj
    rw [Nat.zero_add]
    exact hpre j hj
  have hcond : (!pyIsInt q || numLeZero q) = true := by
    rcases hbad with hb | hb <;> simp [hb]
  have hitem : checkItem it pre.length =
      .error (.valueError ("Item[" ++ toString pre.length ++
        "].qty must be a positives integer")) := by
    unfold checkItem
    rw [hkeys, okBind, hq, okBind]
    simp [hcond]
  have hloop : checkItems (pre ++ it :: rest) 0 =
      .error (.valueError ("Item[" ++ toString pre.length ++
        "].qty must be a positives integer")) := by
    rw [checkItems_append_of_valid pre 0 (it :: rest) hpre', Nat.zero_add]
    simp [checkItems, hitem, errorBind]
  exact validate_mkPayload_loop_error o c od a pm t _ _ (by simp) hloop

/-- A second line item whose qty is 0 (its unit price is fine). -/
def qtyZeroItem : JValue :=
  .jobj [("sku", .jstr "D"), ("name", .jstr "Dates"),
         ("qty", .jint 0), ("unit_price", .jint 1)]

theorem qty_error_cites_item_index_witness :
    (validate_payload (mkPayload (.jstr "O4") (.jstr "C4") [allIntItem, qtyZeroItem]
        (.jstr "2024-01-04") scenarioAddr (.jstr "card") (.jint 2))).1 =
      .error (.valueError "Item[1].qty must be a positives integer") :=
  qty_error_cites_item_index (.jstr "O4") (.jstr "C4") (.jstr "2024-01-04")
    scenarioAddr (.jstr "card") (.jint 2) (.jint 0) [allIntItem] qtyZeroItem []
    (fun j hj => by
      match j with
      | 0 => exact rfl
      | n + 1 => exact absurd hj (by simp only [List.length_singleton]; omega))
    rfl rfl (Or.inr rfl)

/-- A loop that accepts a list accepts its head item. -/
theorem checkItems_cons_ok (it : JValue) (rest : List JValue) (i : Nat)
    (h : checkItems (it :: rest) i = .ok ()) : checkItem it i = .ok () := by
  cases hc : checkItem it i with
  | error e =>
    simp only [checkItems] at h
    rw [hc, errorBind] at h
    exact absurd h (by simp)
  | ok u => cases u; rfl

/-- An item the loop accepts has a `qty` entry that is an int in Python's
`isinstance` sense (an actual int or a bool). -/
theorem checkItem_ok_qty (it : JValue) (i : Nat) (h : checkItem it i = .ok ()) :
    ∃ q, pyGetItem it "qty" = .ok q ∧ pyIsInt q = true := by
  unfold checkItem at h
  cases hk : checkItemKeys it i itemKeys with
  | error e => rw [hk, errorBind] at h; exact absurd h (by simp)
  | ok u =>
    cases u
    rw [hk, okBind] at h
    cases hq : pyGetItem it "qty" with
    | error e => rw [hq, errorBind] at h; exact absurd h (by simp)
    | ok q =>
      rw [hq, okBind] at h
      refine ⟨q, rfl, ?_⟩
      cases hint : pyIsInt q with
      | true => rfl
      | false =>
        rw [hint] at h
        simp at h

/-- The first fold step of `sum(it["qty"]*["unit_price"] for it in items)`
adds the int 0 to a list, raising `TypeError`, whenever the first item has
an int-like qty. -/
theorem computeSum_first_item_typeError (it : JValue) (rest : List JValue)
    (q : JValue) (hq : pyGetItem it "qty" = .ok q) (hint : pyIsInt q = true) :
    computeSum (.int 0) (it :: rest) = .error (.typeError sumTypeErrorMsg) := by
  cases q <;> simp_all [computeSum, itemTerm, okBind, pySumAdd, errorBind, pyIsInt]

/-- C9: for every payload that passes the checks up to and including the
total_amount type check, the arithmetic cross-check raises `TypeError`
(each generator term `it["qty"]*["unit_price"]` is a list, and summing from
the int 0 fails), so `validate_payload` never returns successfully for such
a payload — and since the handler catches `ValueError` only, the
`TypeError` escapes `order_event`. -/
theorem validator_never_succeeds_typeError_escapes
    (data : JValue) (items : List JValue) (addr pm t : JValue)
    (h1 : collectMissing data requiredFields = .ok [])
    (h2 : pyGetItem data "items" = .ok (.jarr items))
    (h3 : items ≠ [])
    (h4 : checkItems items 0 = .ok ())
    (h5 : pyGetItem data "shipping_address" = .ok addr)
    (h6 : pyIsDict addr = true)
    (h7 : checkAddrFields addr addrFields = .ok ())
    (h8 : pyGetItem data "payment_method" = .ok pm)
    (h9 : pyIsStr pm = true)
    (h10 : pyGetItem data "total_amount" = .ok t)
    (h11 : pyIsNumber t = true) :
    (validate_payload data).1 = .error (.typeError sumTypeErrorMsg) ∧
    order_event "POST" (some data) = .error (.typeError sumTypeErrorMsg) := by
  obtain ⟨it, rest, rfl⟩ : ∃ it rest, items = it :: rest := by
    cases items with
    | nil => exact absurd rfl h3
    | cons a l => exact ⟨a, l, rfl⟩
  have hc0 : checkItem it 0 = .ok () := checkItems_cons_ok it rest 0 h4
  obtain ⟨q, hq, hint⟩ := checkItem_ok_qty it 0 hc0
  have hsum : computeSum (.int 0) (it :: rest) = .error (.typeError sumTypeErrorMsg) :=
    computeSum_first_item_typeError it rest q hq hint
  have hval : validate_payload_result data = .error (.typeError sumTypeErrorMsg) := by
    simp [validate_payload_result, h1, h2, h4, h5, h6, h7, h8, h9, h10, h11, hsum,
      okBind, errorBind]
  refine ⟨hval, ?_⟩
  have htr : pyTruthy data = true := pyGetItem_ok_truthy data "items" _ h2
  simp [order_event, order_event_with, htr, hval, validate_payload]

theorem validator_never_succeeds_typeError_escapes_witness :
    (validate_payload allIntPayload).1 = .error (.typeError sumTypeErrorMsg) ∧
    order_event "POST" (some allIntPayload) = .error (.typeError sumTypeErrorMsg) :=
  validator_never_succeeds_typeError_escapes allIntPayload [allIntItem] scenarioAddr
    (.jstr "card") (.jint 2) rfl rfl (by simp) rfl rfl rfl rfl rfl rfl rfl rfl
